/-
  Verification of the Watts Home API client (homebridge-tekmar-wifi).

  Shallow embedding of the token lifecycle (src/lib/api/auth.ts), the
  request executor (src/lib/api/client.ts), the device status cache
  (src/platformAccessory.ts) and the PKCE generator, together with
  theorems settling the specification claims about them.

  Network and filesystem effects are modelled by explicit state passing:
  the in-memory token field, the durable token file, and the outcomes of
  HTTP requests are parameters ("environments") of the embedded
  operations.  JavaScript numbers that hold epoch seconds or HTTP
  statuses are modelled as Int; temperatures as Rat.
-/
import Mathlib

deriving instance DecidableEq for Except

namespace TekmarWifi

/-- JavaScript `a || b` specialised to strings: `a` when it is present and
truthy (a non-empty string), else `b`.  `none` models both `undefined`
and `null`. -/
def jsStringOrElse (a : Option String) (b : String) : String :=
  match a with
  | none => b
  | some v => if v = "" then b else v

/-! ## Data model (src/types/api.ts) -/

/-- `StoredTokens` from src/types/api.ts: the single durably persisted
record.  Epoch-second instants are modelled as `Int`. -/
structure StoredTokens where
  access_token : String
  refresh_token : String
  expires_at : Int
  refresh_token_expires_at : Int
deriving Repr, DecidableEq

/-- The fields of `TokenResponse` (src/types/api.ts) that the refresh
path of `WattsAuth.refreshToken` reads.  `refresh_token` is an
`Option String` because the provider may omit the field (the source
guards with `tokenResponse.refresh_token || tokens.refresh_token`). -/
structure TokenRefreshResponse where
  access_token : String
  refresh_token : Option String
  expires_on : Int
deriving Repr, DecidableEq

/-- The mutable fields of a `WattsAuth` instance (src/lib/api/auth.ts)
plus the durable token file it owns: `this.tokens`, `this.codeVerifier`
and the contents of `tokensFile` (`none` = file absent). -/
structure AuthState where
  tokens : Option StoredTokens
  storedFile : Option StoredTokens
  codeVerifier : Option String
deriving Repr, DecidableEq

/-! ## Token lifecycle (src/lib/api/auth.ts) -/

/-- `WattsAuth.loadTokens`: reads the durable file; on success assigns
`this.tokens` and returns the parsed record, on ENOENT returns null and
leaves `this.tokens` unchanged. -/
def loadTokens (s : AuthState) : Option StoredTokens × AuthState :=
  match s.storedFile with
  | none => (none, s)
  | some t => (some t, { s with tokens := some t })

/-- `WattsAuth.saveTokens`: assigns `this.tokens` and atomically
rewrites the durable file. -/
def saveTokens (tokens : StoredTokens) (s : AuthState) : AuthState :=
  { s with tokens := some tokens, storedFile := some tokens }

/-- `WattsAuth.isTokenExpired`: `tokens.expires_at <= now + bufferSeconds`
with the default buffer of 300 seconds. -/
def isTokenExpired (tokens : StoredTokens) (now : Int)
    (bufferSeconds : Int := 300) : Bool :=
  tokens.expires_at ≤ now + bufferSeconds

/-- Failures surfaced by the auth layer.  Each constructor corresponds
to a `throw new Error(...)` site in src/lib/api/auth.ts. -/
inductive AuthError where
  /-- "No tokens found. Please run \x22watts-cli login\x22 first." -/
  | noTokens
  /-- The refresh POST to the token endpoint failed (axios threw). -/
  | refreshHttpFailure (message : String)
deriving Repr, DecidableEq

/-- `WattsAuth.refreshToken`, with the provider's response to the
refresh POST supplied as the environment `resp` (`Except.error` models
axios throwing on the POST).  The second component counts how many
refresh requests were sent to the provider (0 or 1). -/
def refreshTokenOp (resp : Except String TokenRefreshResponse)
    (s : AuthState) : Except AuthError (StoredTokens × AuthState) × Nat :=
  -- const tokens = this.tokens || await this.loadTokens();
  let loaded :=
    match s.tokens with
    | some t => (some t, s)
    | none => loadTokens s
  match loaded.1 with
  | none => (.error .noTokens, 0)
  | some tokens =>
    -- the POST is sent before its outcome is known: one request either way
    match resp with
    | .error m => (.error (.refreshHttpFailure m), 1)
    | .ok tokenResponse =>
      let newTokens : StoredTokens :=
        { access_token := tokenResponse.access_token
          -- Some APIs don't return new refresh token
          refresh_token :=
            jsStringOrElse tokenResponse.refresh_token tokens.refresh_token
          expires_at := tokenResponse.expires_on
          -- Keep existing expiry
          refresh_token_expires_at := tokens.refresh_token_expires_at }
      (.ok (newTokens, saveTokens newTokens loaded.2), 1)

/-- `WattsAuth.getValidToken`, with the wall clock `now` (epoch seconds)
and the refresh-POST outcome as environment.  Returns the access token
and the updated state; the second component counts refresh requests
sent to the provider during the call. -/
def getValidToken (now : Int) (resp : Except String TokenRefreshResponse)
    (s : AuthState) : Except AuthError (String × AuthState) × Nat :=
  -- let tokens = this.tokens || (await this.loadTokens());
  let loaded :=
    match s.tokens with
    | some t => (some t, s)
    | none => loadTokens s
  match loaded.1 with
  | none => (.error .noTokens, 0)
  | some tokens =>
    if isTokenExpired tokens now then
      match refreshTokenOp resp loaded.2 with
      | (.error e, n) => (.error e, n)
      | (.ok (newTokens, s2), n) => (.ok (newTokens.access_token, s2), n)
    else
      (.ok (tokens.access_token, loaded.2), 0)

/-! ## Claims about the token lifecycle -/

/-- C2: with a stored token pair in memory, `getValidToken` sends a
refresh request exactly when `now ≥ expires_at − 300`, and strictly
before that boundary it returns the stored access token unchanged with
no refresh. -/
theorem getValidToken_refresh_boundary (tk : StoredTokens) (now : Int)
    (s : AuthState) (resp : Except String TokenRefreshResponse)
    (h : s.tokens = some tk) :
    ((getValidToken now resp s).2 = if tk.expires_at - 300 ≤ now then 1 else 0) ∧
    (now < tk.expires_at - 300 →
      (getValidToken now resp s).1 = .ok (tk.access_token, s)) := by
  constructor
  · by_cases hle : tk.expires_at - 300 ≤ now
    · have hb : tk.expires_at ≤ now + 300 := by omega
      simp only [getValidToken, refreshTokenOp, isTokenExpired, h, hb, hle]
      cases resp <;> simp
    · have hb : ¬ tk.expires_at ≤ now + 300 := by omega
      simp [getValidToken, isTokenExpired, h, hb, hle]
  · intro hlt
    have hb : ¬ tk.expires_at ≤ now + 300 := by omega
    simp [getValidToken, isTokenExpired, h, hb]

/-- Witness for C2 at a concrete token pair and two concrete instants,
one on each side of the boundary. -/
theorem getValidToken_refresh_boundary_witness :
    (({ tokens := some ⟨"A", "R", 1000, 2000⟩, storedFile := none,
        codeVerifier := none } : AuthState).tokens =
      some (⟨"A", "R", 1000, 2000⟩ : StoredTokens)) ∧
    ((getValidToken 699 (.error "down")
        { tokens := some ⟨"A", "R", 1000, 2000⟩, storedFile := none,
          codeVerifier := none }).2 = if (1000 : Int) - 300 ≤ 699 then 1 else 0) ∧
    ((getValidToken 699 (.error "down")
        { tokens := some ⟨"A", "R", 1000, 2000⟩, storedFile := none,
          codeVerifier := none }).1 =
      .ok ("A", { tokens := some ⟨"A", "R", 1000, 2000⟩, storedFile := none,
                  codeVerifier := none })) := by
  refine ⟨rfl, ?_, ?_⟩
  · exact (getValidToken_refresh_boundary ⟨"A", "R", 1000, 2000⟩ 699 _ _ rfl).1
  · exact (getValidToken_refresh_boundary ⟨"A", "R", 1000, 2000⟩ 699 _ _ rfl).2
      (by decide)

/-- C3: on a successful refresh, the persisted record adopts the newly
returned refresh token when the response carries one, and retains the
previous refresh token verbatim when the response omits it.  (Under the
source's `||` guard, an empty-string token counts as omitted.) -/
theorem refreshToken_rotation (s : AuthState) (old : StoredTokens)
    (r : TokenRefreshResponse) (h : s.tokens = some old) :
    ∃ nt s', (refreshTokenOp (.ok r) s).1 = .ok (nt, s') ∧
      s'.storedFile = some nt ∧ s'.tokens = some nt ∧
      (∀ rt, r.refresh_token = some rt → rt ≠ "" → nt.refresh_token = rt) ∧
      (r.refresh_token = none → nt.refresh_token = old.refresh_token) := by
  unfold refreshTokenOp
  rw [h]
  simp only
  refine ⟨_, _, rfl, rfl, rfl, ?_, ?_⟩
  · intro rt hrt hne
    simp [jsStringOrElse, hrt, hne]
  · intro hnone
    simp [jsStringOrElse, hnone]

/-- Witness for C3: a refresh response carrying a new token rotates the
persisted refresh token; one omitting it retains the old value. -/
theorem refreshToken_rotation_witness :
    (∃ nt s', (refreshTokenOp (.ok ⟨"A2", some "R2", 5000⟩)
        { tokens := some ⟨"A", "R", 1000, 2000⟩, storedFile := none,
          codeVerifier := none }).1 = .ok (nt, s') ∧
      s'.storedFile = some nt ∧ s'.tokens = some nt ∧
      (∀ rt, (some "R2" : Option String) = some rt → rt ≠ "" →
        nt.refresh_token = rt) ∧
      ((some "R2" : Option String) = none →
        nt.refresh_token = "R")) := by
  exact refreshToken_rotation
    { tokens := some ⟨"A", "R", 1000, 2000⟩, storedFile := none,
      codeVerifier := none } ⟨"A", "R", 1000, 2000⟩ ⟨"A2", some "R2", 5000⟩ rfl

/-! ## Request executor (src/lib/api/client.ts, WattsApiClient.request) -/

/-- `ApiResponse<T>` from src/types/api.ts, as it arrives on the wire:
`errorMessage` may be null and `body` may be null even on success
(the TypeScript type declares `body : T`, but the code performs no
null check before returning it). -/
structure ApiEnvelope (T : Type) where
  errorNumber : Int
  errorMessage : Option String
  body : Option T
deriving Repr, DecidableEq

/-- Outcome of one transport attempt of `this.http.request`:
a 2xx response with a parsed envelope, an HTTP failure for which axios
attaches `error.response` (the `errorMessage` field of whatever
`error.response.data` held, `none` when absent or not an envelope),
or a failure with no response at all (network error or timeout). -/
inductive TransportOutcome (T : Type) where
  | success (envelope : ApiEnvelope T)
  | httpFailure (status : Int) (statusText : String)
      (errorMessage : Option String)
  | networkFailure (message : String)
deriving Repr, DecidableEq

/-- The classified failures thrown by `WattsApiClient.request`.  Each
constructor is one `throw new Error(...)` site of lines 45-65 of
src/lib/api/client.ts, carrying the message the source builds there. -/
inductive RequestError where
  /-- transport succeeded (or `error.response.data` was a usable
  envelope) and the surfaced message is the provider's error text or
  the `API error: n` fallback -/
  | apiError (message : String)
  /-- `error.response` present but no usable envelope message:
  `HTTP status: statusText` -/
  | httpError (status : Int) (statusText : String) (message : String)
  /-- no response received: `Network error: msg` -/
  | networkError (message : String)
deriving Repr, DecidableEq

/-- The human-readable message carried by a classified failure. -/
def RequestError.message : RequestError → String
  | .apiError m => m
  | .httpError _ _ m => m
  | .networkError m => m

/-- `WattsApiClient.request` (lines 45-65): unwraps the envelope of a
successful transport, else classifies the axios error.  The source
performs no retry and no body-null check: an `errorNumber == 0`
envelope is returned as a success even when its body is null. -/
def request {T : Type} (outcome : TransportOutcome T) :
    Except RequestError (Option T) :=
  match outcome with
  | .success env =>
    if env.errorNumber ≠ 0 then
      .error (.apiError (jsStringOrElse env.errorMessage
        ("API error: " ++ toString env.errorNumber)))
    else
      .ok env.body
  | .httpFailure status statusText errorMessage =>
    let fallback := "HTTP " ++ toString status ++ ": " ++ statusText
    match errorMessage with
    | some m =>
      if m = "" then .error (.httpError status statusText fallback)
      else .error (.apiError m)
    | none => .error (.httpError status statusText fallback)
  | .networkFailure m => .error (.networkError ("Network error: " ++ m))

/-- One call through `WattsApiClient.request` against a trace of
per-attempt transport outcomes (`attempts n` is what the `n`-th
transport attempt would produce were one made).  The source issues a
single `this.http.request` call — there is no retry loop, no backoff
and no per-attempt timeout configuration — so exactly the first
outcome is consumed.  The second component is the number of transport
attempts performed. -/
def executeRequest {T : Type} (attempts : Nat → TransportOutcome T) :
    Except RequestError (Option T) × Nat :=
  (request (attempts 0), 1)

/-- A transport trace whose first attempt times out and whose second
attempt would succeed with a well-formed envelope. -/
def timeoutThenSuccess : Nat → TransportOutcome Unit := fun n =>
  if n = 0 then .networkFailure "timeout of 15000ms exceeded"
  else .success ⟨0, none, some ()⟩

/-! ## Claims about the request executor -/

/-- C1 counterexample: on a trace whose first attempt fails with a
timeout and whose second attempt would succeed, the executor performs
exactly one transport attempt and surfaces the failure — it does not
retry, so the call does not complete successfully as the claimed
retry policy would require. -/
theorem executeRequest_no_retry_counterexample :
    executeRequest timeoutThenSuccess =
      (.error (.networkError "Network error: timeout of 15000ms exceeded"), 1) ∧
    (executeRequest timeoutThenSuccess).2 ≠ 2 ∧
    (executeRequest timeoutThenSuccess).2 ≠ 3 ∧
    executeRequest timeoutThenSuccess ≠ (.ok (some ()), 3) := by
  refine ⟨rfl, by decide, by decide, ?_⟩
  intro h
  exact absurd (congrArg Prod.snd h) (by decide)

/-- C1 amended: the executor performs exactly one transport attempt per
call, for every trace; the result is the classification of that single
attempt, so every failure — timeout, retryable-looking status or not —
surfaces with zero retries and no backoff. -/
theorem executeRequest_single_attempt {T : Type}
    (attempts : Nat → TransportOutcome T) :
    (executeRequest attempts).2 = 1 ∧
    (executeRequest attempts).1 = request (attempts 0) :=
  ⟨rfl, rfl⟩

/-- C5 counterexample: a successful-transport response with envelope
`errorNumber = 0`, null `errorMessage` and null `body` is returned as
a success carrying the null body — no error of any kind (in particular
no `EmptyBodyError`, which does not exist in the source) is raised. -/
theorem request_null_body_counterexample :
    request (T := Unit) (.success ⟨0, none, none⟩) = .ok none ∧
    ∀ e : RequestError,
      request (T := Unit) (.success ⟨0, none, none⟩) ≠ .error e := by
  refine ⟨rfl, ?_⟩
  intro e h
  cases h

/-- C5 amended: for every envelope with `errorNumber = 0`, the request
operation succeeds and returns the body verbatim — including a null
body, which is passed through as a success rather than failing. -/
theorem request_returns_null_body {T : Type} (env : ApiEnvelope T)
    (h : env.errorNumber = 0) :
    request (.success env) = .ok env.body := by
  simp [request, h]

/-- Witness for the amended C5 at the concrete envelope
`{errorNumber: 0, errorMessage: null, body: null}`. -/
theorem request_returns_null_body_witness :
    ((⟨0, none, none⟩ : ApiEnvelope Unit).errorNumber = 0) ∧
    request (T := Unit) (.success ⟨0, none, none⟩) =
      .ok (⟨0, none, none⟩ : ApiEnvelope Unit).body :=
  ⟨rfl, request_returns_null_body ⟨0, none, none⟩ rfl⟩

/-- C6: terminal failures are classified by provenance — no response
received yields `networkError`; a response carrying a usable envelope
message yields `apiError` with the provider's own text (both on an
errorNumber ≠ 0 envelope and on an HTTP failure whose data held an
envelope); a bare HTTP failure without a usable envelope yields
`httpError` carrying the status and statusText — and each surfaced
message is the provider's error text when available, else a
protocol-level description of the failure. -/
theorem request_error_classification {T : Type} (m em stx : String)
    (st : Int) (env : ApiEnvelope T) :
    (request (T := T) (.networkFailure m) =
      .error (.networkError ("Network error: " ++ m))) ∧
    (em ≠ "" → request (T := T) (.httpFailure st stx (some em)) =
      .error (.apiError em)) ∧
    (request (T := T) (.httpFailure st stx none) =
      .error (.httpError st stx ("HTTP " ++ toString st ++ ": " ++ stx))) ∧
    (request (T := T) (.httpFailure st stx (some "")) =
      .error (.httpError st stx ("HTTP " ++ toString st ++ ": " ++ stx))) ∧
    (env.errorNumber ≠ 0 → em ≠ "" → env.errorMessage = some em →
      request (.success env) = .error (.apiError em)) ∧
    (env.errorNumber ≠ 0 → env.errorMessage = none →
      request (.success env) =
        .error (.apiError ("API error: " ++ toString env.errorNumber))) := by
  refine ⟨rfl, ?_, rfl, rfl, ?_, ?_⟩
  · intro hne
    simp [request, hne]
  · intro hn hne hm
    simp [request, hn, jsStringOrElse, hm, hne]
  · intro hn hm
    simp [request, hn, jsStringOrElse, hm]

/-- Witness for C6 at concrete failures of each of the three kinds. -/
theorem request_error_classification_witness :
    (request (T := Unit) (.networkFailure "socket hang up") =
      .error (.networkError ("Network error: " ++ "socket hang up"))) ∧
    ("Device not found" ≠ "" →
      request (T := Unit) (.httpFailure 404 "Not Found" (some "Device not found")) =
        .error (.apiError "Device not found")) ∧
    (request (T := Unit) (.httpFailure 404 "Not Found" none) =
      .error (.httpError 404 "Not Found"
        ("HTTP " ++ toString (404 : Int) ++ ": " ++ "Not Found"))) := by
  have h := request_error_classification (T := Unit) "socket hang up"
    "Device not found" "Not Found" 404 ⟨0, none, none⟩
  exact ⟨h.1, h.2.1, h.2.2.1⟩

/-! ## Device data (src/types/api.ts, the fields the claims touch) -/

/-- `DeviceSchedule.Floor` from src/types/api.ts: `W` is the floor
minimum temperature, `A` the away temperature (0 = not set).
Temperatures (JS numbers) are modelled as `Rat`. -/
structure FloorSchedule where
  W : Rat
  A : Rat
deriving Repr, DecidableEq

/-- The part of `DeviceSchedule` the client reads and writes. -/
structure DeviceScheduleData where
  Floor : FloorSchedule
deriving Repr, DecidableEq

/-- The part of `DeviceData` the away-temperature path reads. -/
structure DeviceData where
  Schedule : DeviceScheduleData
deriving Repr, DecidableEq

/-- A device as returned by `GET /Device/{id}` (the fields used by the
cache and the away-temperature update). -/
structure Device where
  deviceId : String
  data : DeviceData
deriving Repr, DecidableEq

/-- `DeviceSettings.Schedule.Floor` as sent in a PATCH payload. -/
structure FloorSettings where
  W : Option Rat
  A : Option Rat
deriving Repr, DecidableEq

/-- `DeviceSettings.Schedule` as sent in a PATCH payload. -/
structure ScheduleSettings where
  Floor : Option FloorSettings
deriving Repr, DecidableEq

/-- `DeviceSettings` from src/types/api.ts: the PATCH payload of
`updateDevice`; absent fields are `none`. -/
structure DeviceSettings where
  Heat : Option Rat := none
  Cool : Option Rat := none
  Schedule : Option ScheduleSettings := none
deriving Repr, DecidableEq

/-! ## Away-temperature update (src/lib/api/client.ts,
WattsApiClient.setDeviceAwayTemp) -/

/-- `WattsApiClient.setDeviceAwayTemp` (lines 187-203): the settings
payload it PATCHes, given the device state it first reads via
`getDevice` (the environment `device`) and the argument
(`none` models the JS `null`). -/
def setDeviceAwayTemp (device : Device) (temperature : Option Rat) :
    DeviceSettings :=
  -- temperature of 0 or null unsets away temp
  let awayTemp : Rat :=
    match temperature with
    | none => 0
    | some t => if t = 0 then 0 else t
  -- Need to read current device to preserve existing Floor.W value
  let currentFloorW := device.data.Schedule.Floor.W
  { Schedule := some
      { Floor := some
          { W := some currentFloorW  -- Preserve floor minimum
            A := some awayTemp } } }

/-- C10: the away-temperature update preserves the floor minimum it
just read (`Schedule.Floor.W` equals the device's current value) and
sends `Schedule.Floor.A = 0` exactly when the argument is null or 0,
else the argument itself. -/
theorem setDeviceAwayTemp_payload (device : Device)
    (temperature : Option Rat) :
    (setDeviceAwayTemp device temperature).Schedule = some
      { Floor := some
          { W := some device.data.Schedule.Floor.W
            A := some (match temperature with
                       | none => 0
                       | some t => if t = 0 then 0 else t) } } ∧
    ((temperature = none ∨ temperature = some 0) →
      setDeviceAwayTemp device temperature =
        { Schedule := some
            { Floor := some
                { W := some device.data.Schedule.Floor.W, A := some 0 } } }) ∧
    (∀ t : Rat, temperature = some t → t ≠ 0 →
      setDeviceAwayTemp device temperature =
        { Schedule := some
            { Floor := some
                { W := some device.data.Schedule.Floor.W, A := some t } } }) := by
  refine ⟨rfl, ?_, ?_⟩
  · rintro (h | h) <;> simp [setDeviceAwayTemp, h]
  · intro t h hne
    simp [setDeviceAwayTemp, h, hne]

/-- Witness for C10 at a concrete device, exercising the unset (null),
unset (0) and set (18.5) cases. -/
theorem setDeviceAwayTemp_payload_witness :
    (setDeviceAwayTemp ⟨"d1", ⟨⟨⟨21, 0⟩⟩⟩⟩ none =
      { Schedule := some { Floor := some { W := some 21, A := some 0 } } }) ∧
    (setDeviceAwayTemp ⟨"d1", ⟨⟨⟨21, 0⟩⟩⟩⟩ (some 0) =
      { Schedule := some { Floor := some { W := some 21, A := some 0 } } }) ∧
    (setDeviceAwayTemp ⟨"d1", ⟨⟨⟨21, 0⟩⟩⟩⟩ (some (37/2)) =
      { Schedule := some { Floor := some { W := some 21, A := some (37/2) } } }) := by
  refine ⟨?_, ?_, ?_⟩
  · exact (setDeviceAwayTemp_payload ⟨"d1", ⟨⟨⟨21, 0⟩⟩⟩⟩ none).2.1 (Or.inl rfl)
  · exact (setDeviceAwayTemp_payload ⟨"d1", ⟨⟨⟨21, 0⟩⟩⟩⟩ (some 0)).2.1 (Or.inr rfl)
  · exact (setDeviceAwayTemp_payload ⟨"d1", ⟨⟨⟨21, 0⟩⟩⟩⟩ (some (37/2))).2.2
      (37/2) rfl (by norm_num)

/-! ## Device status cache (src/platformAccessory.ts) -/

/-- The cache fields of a `TekmarThermostatAccessory`:
`this.cachedDevice` and `this.cacheTimestamp` (milliseconds). -/
structure CacheState where
  cachedDevice : Option Device
  cacheTimestamp : Int
deriving Repr, DecidableEq

/-- `this.cacheTimeout = 5000` (5 seconds). -/
def cacheTimeout : Int := 5000

/-- `TekmarThermostatAccessory.getCachedDevice` (lines 139-150), with
the wall clock `now = Date.now()` and the device the API would return
on a fetch as environment.  Yields the returned device, the updated
cache, and the number of underlying `getDevice` fetches (0 or 1). -/
def getCachedDevice (s : CacheState) (now : Int) (fetched : Device) :
    Device × CacheState × Nat :=
  match s.cachedDevice with
  | some d =>
    if now - s.cacheTimestamp < cacheTimeout then (d, s, 0)
    else (fetched, { cachedDevice := some fetched, cacheTimestamp := now }, 1)
  | none =>
    (fetched, { cachedDevice := some fetched, cacheTimestamp := now }, 1)

/-- `TekmarThermostatAccessory.updateCache` (lines 185-188): after a
successful write operation, overwrite the cache entry with the device
returned by the PATCH and stamp it with `Date.now()`. -/
def updateCache (device : Device) (now : Int) : CacheState :=
  { cachedDevice := some device, cacheTimestamp := now }

/-- C7: a get whose entry's age is strictly below the 5000ms TTL
returns the cached value with zero fetches and an unchanged cache; any
other get performs exactly one fetch and stores the fresh result under
the new timestamp; and a successful write is immediately visible — a
get at any instant within the TTL of the write (in particular the same
instant) returns the written device with zero fetches. -/
theorem cache_ttl_and_write_through (s : CacheState) (now : Int)
    (fetched : Device) :
    (∀ d, s.cachedDevice = some d → now - s.cacheTimestamp < cacheTimeout →
      getCachedDevice s now fetched = (d, s, 0)) ∧
    (s.cachedDevice = none ∨ cacheTimeout ≤ now - s.cacheTimestamp →
      getCachedDevice s now fetched =
        (fetched, { cachedDevice := some fetched, cacheTimestamp := now }, 1)) ∧
    (∀ (d : Device) (t now' : Int), now' - t < cacheTimeout →
      getCachedDevice (updateCache d t) now' fetched = (d, updateCache d t, 0)) := by
  refine ⟨?_, ?_, ?_⟩
  · intro d hd hage
    simp [getCachedDevice, hd, hage]
  · rintro (h | h)
    · simp [getCachedDevice, h]
    · have hnot : ¬ now - s.cacheTimestamp < cacheTimeout := by omega
      cases hc : s.cachedDevice with
      | none => simp [getCachedDevice, hc]
      | some d => simp [getCachedDevice, hc, hnot]
  · intro d t now' hage
    simp [getCachedDevice, updateCache, hage]

/-- Witness for C7 at concrete instants: a fresh hit at age 4999ms, a
miss at age 5000ms, and a write immediately visible at the same
instant. -/
theorem cache_ttl_and_write_through_witness :
    (getCachedDevice ⟨some ⟨"a", ⟨⟨⟨21, 0⟩⟩⟩⟩, 1000⟩ 5999 ⟨"b", ⟨⟨⟨22, 0⟩⟩⟩⟩ =
      (⟨"a", ⟨⟨⟨21, 0⟩⟩⟩⟩, ⟨some ⟨"a", ⟨⟨⟨21, 0⟩⟩⟩⟩, 1000⟩, 0)) ∧
    (getCachedDevice ⟨some ⟨"a", ⟨⟨⟨21, 0⟩⟩⟩⟩, 1000⟩ 6000 ⟨"b", ⟨⟨⟨22, 0⟩⟩⟩⟩ =
      (⟨"b", ⟨⟨⟨22, 0⟩⟩⟩⟩, ⟨some ⟨"b", ⟨⟨⟨22, 0⟩⟩⟩⟩, 6000⟩, 1)) ∧
    (getCachedDevice (updateCache ⟨"c", ⟨⟨⟨23, 0⟩⟩⟩⟩ 7000) 7000 ⟨"b", ⟨⟨⟨22, 0⟩⟩⟩⟩ =
      (⟨"c", ⟨⟨⟨23, 0⟩⟩⟩⟩, updateCache ⟨"c", ⟨⟨⟨23, 0⟩⟩⟩⟩ 7000, 0)) := by
  refine ⟨?_, ?_, ?_⟩
  · exact (cache_ttl_and_write_through ⟨some ⟨"a", ⟨⟨⟨21, 0⟩⟩⟩⟩, 1000⟩ 5999
      ⟨"b", ⟨⟨⟨22, 0⟩⟩⟩⟩).1 ⟨"a", ⟨⟨⟨21, 0⟩⟩⟩⟩ rfl (by decide)
  · exact (cache_ttl_and_write_through ⟨some ⟨"a", ⟨⟨⟨21, 0⟩⟩⟩⟩, 1000⟩ 6000
      ⟨"b", ⟨⟨⟨22, 0⟩⟩⟩⟩).2.1 (Or.inr (by decide))
  · exact (cache_ttl_and_write_through ⟨some ⟨"a", ⟨⟨⟨21, 0⟩⟩⟩⟩, 1000⟩ 6000
      ⟨"b", ⟨⟨⟨22, 0⟩⟩⟩⟩).2.2 ⟨"c", ⟨⟨⟨23, 0⟩⟩⟩⟩ 7000 7000 (by decide)

/-! ## Headless login flow (src/lib/api/auth.ts, WattsAuth.login) -/

/-- Result of step 1 (`getLoginPage`): the CSRF token, transaction id
and session cookies extracted from the authorize page. -/
structure LoginPageResult where
  csrfToken : String
  transId : String
  cookies : List (String × String)
deriving Repr, DecidableEq

/-- The fields of the token-endpoint response read by `login` after a
successful code exchange. -/
structure TokenExchangeResponse where
  access_token : String
  refresh_token : String
  expires_on : Int
  refresh_token_expires_in : Int
deriving Repr, DecidableEq

/-- Environment of one `login(email, password)` attempt: the PKCE
verifier generated at the start of step 1 and the outcome of each of
the four network stages (`Except.error` carries the message of the
`Error` the stage throws — parse failure, rejected credentials,
missing redirect/code, or a failed token exchange). -/
structure LoginEnv where
  verifier : String
  pageOutcome : Except String LoginPageResult
  submitOutcome : Except String (List (String × String))
  redirectOutcome : Except String String
  exchangeOutcome : Except String TokenExchangeResponse
deriving Repr, DecidableEq

/-- `WattsAuth.login` (lines 368-405): runs the four stages strictly in
sequence, aborting on the first failure; only after all four succeed
does it build `StoredTokens` and call `saveTokens`.  `getLoginPage`
assigns `this.codeVerifier` before its request, so that field changes
even on failure; the token state does not. -/
def login (env : LoginEnv) (now : Int) (s : AuthState) :
    Except String StoredTokens × AuthState :=
  -- Step 1: getLoginPage generates the PKCE pair and stores the verifier
  let s1 := { s with codeVerifier := some env.verifier }
  match env.pageOutcome with
  | .error e => (.error e, s1)
  | .ok _page =>
    -- Step 2: submit credentials
    match env.submitOutcome with
    | .error e => (.error e, s1)
    | .ok _updatedCookies =>
      -- Step 3: follow redirect, extract authorization code
      match env.redirectOutcome with
      | .error e => (.error e, s1)
      | .ok _authCode =>
        -- Step 4: exchange authorization code for tokens
        match env.exchangeOutcome with
        | .error e => (.error e, s1)
        | .ok tr =>
          let tokens : StoredTokens :=
            { access_token := tr.access_token
              refresh_token := tr.refresh_token
              expires_at := tr.expires_on
              refresh_token_expires_at := now + tr.refresh_token_expires_in }
          (.ok tokens, saveTokens tokens s1)

/-- C9: a login attempt that fails at any of the four stages leaves the
in-memory token field and the durable token record exactly as they
were; `saveTokens` runs only after all four stages succeed, and then
persists precisely the tokens built from the exchange response. -/
theorem login_no_overwrite_on_failure (env : LoginEnv) (now : Int)
    (s : AuthState) :
    (∀ e, (login env now s).1 = .error e →
      (login env now s).2.tokens = s.tokens ∧
      (login env now s).2.storedFile = s.storedFile) ∧
    (∀ tk, (login env now s).1 = .ok tk →
      (login env now s).2 =
        saveTokens tk { s with codeVerifier := some env.verifier }) := by
  unfold login
  cases env.pageOutcome with
  | error e => exact ⟨fun _ _ => ⟨rfl, rfl⟩, fun tk h => by cases h⟩
  | ok page =>
    cases env.submitOutcome with
    | error e => exact ⟨fun _ _ => ⟨rfl, rfl⟩, fun tk h => by cases h⟩
    | ok cookies =>
      cases env.redirectOutcome with
      | error e => exact ⟨fun _ _ => ⟨rfl, rfl⟩, fun tk h => by cases h⟩
      | ok code =>
        cases env.exchangeOutcome with
        | error e => exact ⟨fun _ _ => ⟨rfl, rfl⟩, fun tk h => by cases h⟩
        | ok tr =>
          constructor
          · intro e h
            cases h
          · intro tk h
            simp only [Except.ok.injEq] at h
            subst h
            rfl

/-- Witness for C9: a concrete attempt failing at step 2 (rejected
credentials) leaves a previously stored token pair untouched. -/
theorem login_no_overwrite_on_failure_witness :
    ((login ⟨"v", .ok ⟨"csrf", "t1", []⟩, .error "Login failed: bad password",
        .ok "XYZ", .ok ⟨"A", "R", 900, 7776000⟩⟩ 100
      { tokens := some ⟨"A0", "R0", 1000, 2000⟩,
        storedFile := some ⟨"A0", "R0", 1000, 2000⟩, codeVerifier := none }).1 =
      .error "Login failed: bad password") ∧
    ((login ⟨"v", .ok ⟨"csrf", "t1", []⟩, .error "Login failed: bad password",
        .ok "XYZ", .ok ⟨"A", "R", 900, 7776000⟩⟩ 100
      { tokens := some ⟨"A0", "R0", 1000, 2000⟩,
        storedFile := some ⟨"A0", "R0", 1000, 2000⟩, codeVerifier := none }).2.tokens =
      some ⟨"A0", "R0", 1000, 2000⟩) ∧
    ((login ⟨"v", .ok ⟨"csrf", "t1", []⟩, .error "Login failed: bad password",
        .ok "XYZ", .ok ⟨"A", "R", 900, 7776000⟩⟩ 100
      { tokens := some ⟨"A0", "R0", 1000, 2000⟩,
        storedFile := some ⟨"A0", "R0", 1000, 2000⟩, codeVerifier := none }).2.storedFile =
      some ⟨"A0", "R0", 1000, 2000⟩) := by
  have h := (login_no_overwrite_on_failure
    ⟨"v", .ok ⟨"csrf", "t1", []⟩, .error "Login failed: bad password",
      .ok "XYZ", .ok ⟨"A", "R", 900, 7776000⟩⟩ 100
    { tokens := some ⟨"A0", "R0", 1000, 2000⟩,
      storedFile := some ⟨"A0", "R0", 1000, 2000⟩, codeVerifier := none }).1
    "Login failed: bad password" rfl
  exact ⟨rfl, h.1, h.2⟩

/-! ## Concurrent getValidToken callers (src/lib/api/auth.ts)

Under Node's single-threaded cooperative scheduling, a caller of
`getValidToken` runs synchronously from entry to the refresh POST
inside `refreshToken` (with an in-memory token there is no earlier
await), suspends there, and on resumption runs `saveTokens` and
returns.  The model below has each caller as a two-segment program
over the shared `WattsAuth` state and counts refresh requests sent. -/

/-- Program point of one concurrent `getValidToken` caller.  A caller
suspended at the refresh POST has already read and captured
`this.tokens` (the `tokens` local of `refreshToken`). -/
inductive CallerPhase where
  | ready
  | awaitingRefresh (captured : StoredTokens)
  | finished (result : Except AuthError String)
deriving Repr, DecidableEq

/-- Shared state of two concurrent `getValidToken` calls on one
`WattsAuth` instance, plus the count of refresh requests sent to the
provider. -/
structure ConcState where
  auth : AuthState
  phase1 : CallerPhase
  phase2 : CallerPhase
  refreshRequests : Nat
deriving Repr, DecidableEq

/-- Replace the phase of caller `c` (`true` = caller 1). -/
def setPhase (st : ConcState) (c : Bool) (p : CallerPhase) : ConcState :=
  if c then { st with phase1 := p } else { st with phase2 := p }

/-- Run caller `c` for one segment: from entry to the refresh POST
(first segment, emitting one refresh request when the token is
expired), or from the arrival of the refresh response to completion
(second segment, building the new tokens from the captured ones and
saving them).  A finished caller does nothing. -/
def stepCaller (now : Int) (resp : TokenRefreshResponse) (st : ConcState)
    (c : Bool) : ConcState :=
  match (if c then st.phase1 else st.phase2) with
  | .ready =>
    -- let tokens = this.tokens || (await this.loadTokens());
    let loaded :=
      match st.auth.tokens with
      | some t => (some t, st.auth)
      | none => loadTokens st.auth
    match loaded.1 with
    | none =>
      setPhase { st with auth := loaded.2 } c (.finished (.error .noTokens))
    | some tokens =>
      if isTokenExpired tokens now then
        -- refreshToken re-reads this.tokens (unchanged: no await since
        -- the check), builds the form from it, sends the POST, suspends
        setPhase { st with auth := loaded.2,
                           refreshRequests := st.refreshRequests + 1 }
          c (.awaitingRefresh tokens)
      else
        setPhase { st with auth := loaded.2 }
          c (.finished (.ok tokens.access_token))
  | .awaitingRefresh captured =>
    -- the response arrives: build newTokens from the captured tokens
    let newTokens : StoredTokens :=
      { access_token := resp.access_token
        refresh_token := jsStringOrElse resp.refresh_token captured.refresh_token
        expires_at := resp.expires_on
        refresh_token_expires_at := captured.refresh_token_expires_at }
    setPhase { st with auth := saveTokens newTokens st.auth }
      c (.finished (.ok newTokens.access_token))
  | .finished _ => st

/-- Run the two callers under a cooperative schedule (the list of
caller ids, in the order the event loop resumes them). -/
def runSchedule (now : Int) (resp : TokenRefreshResponse)
    (schedule : List Bool) (st : ConcState) : ConcState :=
  schedule.foldl (stepCaller now resp) st

/-- The concrete scenario for C4: an expired token pair shared by both
callers. -/
def concScenarioInit : ConcState :=
  { auth := { tokens := some ⟨"A", "R", 1000, 9999⟩,
              storedFile := some ⟨"A", "R", 1000, 9999⟩, codeVerifier := none }
    phase1 := .ready
    phase2 := .ready
    refreshRequests := 0 }

/-- C4 counterexample: at `now = 800` the stored token (expiring at
1000) is within the 300s buffer; under the legal cooperative schedule
in which both callers enter before either refresh response arrives,
both observe the expired token, and two refresh requests are sent to
the provider — not one. -/
theorem getValidToken_concurrent_counterexample :
    (runSchedule 800 ⟨"A2", some "R2", 5000⟩ [true, false]
        concScenarioInit).phase1 =
      .awaitingRefresh ⟨"A", "R", 1000, 9999⟩ ∧
    (runSchedule 800 ⟨"A2", some "R2", 5000⟩ [true, false]
        concScenarioInit).phase2 =
      .awaitingRefresh ⟨"A", "R", 1000, 9999⟩ ∧
    (runSchedule 800 ⟨"A2", some "R2", 5000⟩ [true, false, true, false]
        concScenarioInit).refreshRequests = 2 ∧
    (runSchedule 800 ⟨"A2", some "R2", 5000⟩ [true, false, true, false]
        concScenarioInit).refreshRequests ≠ 1 := by
  refine ⟨by decide, by decide, by decide, by decide⟩

/-- C4 amended: `getValidToken` performs no deduplication of in-flight
refreshes — every caller that observes an expired token sends its own
refresh request, so two concurrent callers interleaved before either
completes send exactly two refresh requests. -/
theorem getValidToken_concurrent_duplicates (t : StoredTokens) (now : Int)
    (resp : TokenRefreshResponse) (file : Option StoredTokens)
    (cv : Option String) (h : isTokenExpired t now = true) :
    (runSchedule now resp [true, false, true, false]
      { auth := { tokens := some t, storedFile := file, codeVerifier := cv }
        phase1 := .ready, phase2 := .ready,
        refreshRequests := 0 }).refreshRequests = 2 := by
  simp [runSchedule, stepCaller, setPhase, h, saveTokens]

/-- Witness for the amended C4 at the concrete expired scenario. -/
theorem getValidToken_concurrent_duplicates_witness :
    isTokenExpired ⟨"A", "R", 1000, 9999⟩ 800 = true ∧
    (runSchedule 800 ⟨"A2", some "R2", 5000⟩ [true, false, true, false]
      { auth := { tokens := some ⟨"A", "R", 1000, 9999⟩,
                  storedFile := some ⟨"A", "R", 1000, 9999⟩,
                  codeVerifier := none }
        phase1 := .ready, phase2 := .ready,
        refreshRequests := 0 }).refreshRequests = 2 :=
  ⟨by decide, getValidToken_concurrent_duplicates ⟨"A", "R", 1000, 9999⟩ 800
    ⟨"A2", some "R2", 5000⟩ (some ⟨"A", "R", 1000, 9999⟩) none (by decide)⟩

/-! ## PKCE generator (src/lib/api/auth.ts, WattsAuth.generatePKCE)

`crypto.randomBytes(32).toString('base64url')` and
`crypto.createHash('sha256').update(verifier).digest('base64url')` are
Node primitives; they are embedded here in full: SHA-256 per FIPS 180-4
over byte lists (32-bit words as `Nat` mod 2^32) and Node's unpadded
URL-safe base64 alphabet.  Both are checked below against standard test
vectors. -/

namespace SHA256

/-- Addition modulo 2^32. -/
def add32 (x y : Nat) : Nat := (x + y) % 4294967296

/-- Right rotation of a 32-bit word. -/
def rotr (n x : Nat) : Nat := ((x >>> n) ||| (x <<< (32 - n))) % 4294967296

/-- The choice function `Ch(x,y,z)`; `¬x` as xor with the 32-bit mask. -/
def ch (x y z : Nat) : Nat := (x &&& y) ^^^ ((x ^^^ 4294967295) &&& z)

/-- The majority function `Maj(x,y,z)`. -/
def maj (x y z : Nat) : Nat := (x &&& y) ^^^ (x &&& z) ^^^ (y &&& z)

/-- `Σ0` of FIPS 180-4. -/
def bigSigma0 (x : Nat) : Nat := rotr 2 x ^^^ rotr 13 x ^^^ rotr 22 x

/-- `Σ1` of FIPS 180-4. -/
def bigSigma1 (x : Nat) : Nat := rotr 6 x ^^^ rotr 11 x ^^^ rotr 25 x

/-- `σ0` of FIPS 180-4. -/
def smallSigma0 (x : Nat) : Nat := rotr 7 x ^^^ rotr 18 x ^^^ (x >>> 3)

/-- `σ1` of FIPS 180-4. -/
def smallSigma1 (x : Nat) : Nat := rotr 17 x ^^^ rotr 19 x ^^^ (x >>> 10)

/-- The 64 round constants (FIPS 180-4 section 4.2.2, in decimal). -/
def K : Array Nat := #[
  1116352408, 1899447441, 3049323471, 3921009573, 961987163, 1508970993,
  2453635748, 2870763221, 3624381080, 310598401, 607225278, 1426881987,
  1925078388, 2162078206, 2614888103, 3248222580, 3835390401, 4022224774,
  264347078, 604807628, 770255983, 1249150122, 1555081692, 1996064986,
  2554220882, 2821834349, 2952996808, 3210313671, 3336571891, 3584528711,
  113926993, 338241895, 666307205, 773529912, 1294757372, 1396182291,
  1695183700, 1986661051, 2177026350, 2456956037, 2730485921, 2820302411,
  3259730800, 3345764771, 3516065817, 3600352804, 4094571909, 275423344,
  430227734, 506948616, 659060556, 883997877, 958139571, 1322822218,
  1537002063, 1747873779, 1955562222, 2024104815, 2227730452, 2361852424,
  2428436474, 2756734187, 3204031479, 3329325298]

/-- The initial hash value (FIPS 180-4 section 5.3.3, in decimal). -/
def initH : Array Nat :=
  #[1779033703, 3144134277, 1013904242, 2773480762,
    1359893119, 2600822924, 528734635, 1541459225]

/-- Append the `0x80` byte, zero padding to 56 mod 64, and the 64-bit
big-endian bit length. -/
def pad (msg : List Nat) : List Nat :=
  let len := msg.length
  let k := (120 - ((len + 1) % 64)) % 64
  let bitLen := len * 8
  msg ++ [128] ++ List.replicate k 0 ++
    [(bitLen >>> 56) % 256, (bitLen >>> 48) % 256, (bitLen >>> 40) % 256,
     (bitLen >>> 32) % 256, (bitLen >>> 24) % 256, (bitLen >>> 16) % 256,
     (bitLen >>> 8) % 256, bitLen % 256]

/-- Big-endian 32-bit words from bytes. -/
def toWords : List Nat → List Nat
  | b0 :: b1 :: b2 :: b3 :: rest =>
    ((((b0 <<< 8) ||| b1) <<< 8 ||| b2) <<< 8 ||| b3) :: toWords rest
  | _ => []

/-- The eight working variables of the compression loop. -/
structure RoundState where
  a : Nat
  b : Nat
  c : Nat
  d : Nat
  e : Nat
  f : Nat
  g : Nat
  h : Nat

/-- Extend 16 message words to the 64-entry message schedule. -/
def schedule (w16 : List Nat) : Array Nat :=
  (List.range 48).foldl
    (fun w _ =>
      let t := w.size
      w.push (add32 (add32 (smallSigma1 w[t - 2]!) w[t - 7]!)
        (add32 (smallSigma0 w[t - 15]!) w[t - 16]!)))
    w16.toArray

/-- Compress one 16-word block into the hash value. -/
def processChunk (hv : Array Nat) (w16 : List Nat) : Array Nat :=
  let w := schedule w16
  let st0 : RoundState :=
    ⟨hv[0]!, hv[1]!, hv[2]!, hv[3]!, hv[4]!, hv[5]!, hv[6]!, hv[7]!⟩
  let stf := (List.range 64).foldl
    (fun st t =>
      let t1 := add32 (add32 st.h (bigSigma1 st.e))
        (add32 (ch st.e st.f st.g) (add32 K[t]! w[t]!))
      let t2 := add32 (bigSigma0 st.a) (maj st.a st.b st.c)
      ⟨add32 t1 t2, st.a, st.b, st.c, add32 st.d t1, st.e, st.f, st.g⟩)
    st0
  #[add32 hv[0]! stf.a, add32 hv[1]! stf.b, add32 hv[2]! stf.c,
    add32 hv[3]! stf.d, add32 hv[4]! stf.e, add32 hv[5]! stf.f,
    add32 hv[6]! stf.g, add32 hv[7]! stf.h]

/-- Fold the compression over the padded message, 16 words at a time. -/
def processAll (hv : Array Nat) : List Nat → Array Nat
  | w0 :: w1 :: w2 :: w3 :: w4 :: w5 :: w6 :: w7 ::
    w8 :: w9 :: w10 :: w11 :: w12 :: w13 :: w14 :: w15 :: rest =>
    processAll
      (processChunk hv
        [w0, w1, w2, w3, w4, w5, w6, w7, w8, w9, w10, w11, w12, w13, w14, w15])
      rest
  | _ => hv

/-- SHA-256 of a byte list, as a 32-byte list. -/
def sha256 (msg : List Nat) : List Nat :=
  let hv := processAll initH (toWords (pad msg))
  (hv.toList.map
    (fun w => [(w >>> 24) % 256, (w >>> 16) % 256, (w >>> 8) % 256, w % 256])).flatten

end SHA256

/-- Node's base64url alphabet. -/
def b64Alphabet : List Char :=
  "ABCDEFGHIJKLMNOPQRSTUVWXYZabcdefghijklmnopqrstuvwxyz0123456789-_".toList

/-- The base64url digit for a 6-bit value. -/
def b64Char (n : Nat) : Char := b64Alphabet.getD n 'A'

/-- Node's `Buffer.toString('base64url')`: URL-safe alphabet, no
padding. -/
def base64urlEncode : List Nat → List Char
  | [] => []
  | [b0] => [b64Char (b0 >>> 2), b64Char ((b0 % 4) <<< 4)]
  | [b0, b1] =>
    [b64Char (b0 >>> 2), b64Char (((b0 % 4) <<< 4) ||| (b1 >>> 4)),
     b64Char ((b1 % 16) <<< 2)]
  | b0 :: b1 :: b2 :: rest =>
    b64Char (b0 >>> 2) :: b64Char (((b0 % 4) <<< 4) ||| (b1 >>> 4)) ::
    b64Char (((b1 % 16) <<< 2) ||| (b2 >>> 6)) :: b64Char (b2 % 64) ::
    base64urlEncode rest

/-- base64url of a byte list, as a string. -/
def base64url (bytes : List Nat) : String := String.mk (base64urlEncode bytes)

/-- UTF-8 bytes of a base64url string (all characters are ASCII, so
bytes coincide with code points); this is what
`crypto.createHash('sha256').update(verifier)` hashes. -/
def strBytes (s : String) : List Nat := s.toList.map Char.toNat

set_option maxRecDepth 8192 in
/-- Sanity check of the SHA-256 embedding against the FIPS 180-4 test
vector for "abc". -/
theorem sha256_test_vector_abc :
    SHA256.sha256 (strBytes "abc") =
      [186, 120, 22, 191, 143, 1, 207, 234, 65, 65, 64, 222, 93, 174, 34, 35,
       176, 3, 97, 163, 150, 23, 122, 156, 180, 16, 255, 97, 242, 0, 21, 173] := by
  rfl

/-- Sanity check of the base64url embedding: bytes 0xfb 0xef encode to
"--8" (URL-safe digits, no padding), and 0..7 encode as in Node. -/
theorem base64url_test_vectors :
    base64url [251, 239] = "--8" ∧
    base64url [0, 1, 2, 3, 4, 5, 6, 7] = "AAECAwQFBgc" := by
  constructor <;> rfl

/-- `PKCEPair` from src/lib/api/auth.ts. -/
structure PKCEPair where
  challenge : String
  verifier : String
deriving Repr, DecidableEq

/-- `WattsAuth.generatePKCE` (lines 248-252), with the 32 bytes
produced by `crypto.randomBytes(32)` as environment: the verifier is
their base64url encoding and the challenge the base64url-encoded
SHA-256 digest of the verifier string. -/
def generatePKCE (randomBytes : List Nat) : PKCEPair :=
  let verifier := base64url randomBytes
  let challenge := base64url (SHA256.sha256 (strBytes verifier))
  { challenge := challenge, verifier := verifier }

/-- C8: for every PKCE pair generated from the 32 random bytes, the
challenge is the URL-safe-encoded SHA-256 digest of the verifier, and
the verifier is the URL-safe encoding of at least 32 bytes of the
random input. -/
theorem generatePKCE_spec (r : List Nat) (h : r.length = 32) :
    (generatePKCE r).challenge =
      base64url (SHA256.sha256 (strBytes (generatePKCE r).verifier)) ∧
    ∃ bytes : List Nat, 32 ≤ bytes.length ∧
      (generatePKCE r).verifier = base64url bytes :=
  ⟨rfl, r, le_of_eq h.symm, rfl⟩

/-- Witness for C8 at a concrete 32-byte random input. -/
theorem generatePKCE_spec_witness :
    (List.replicate 32 0).length = 32 ∧
    ((generatePKCE (List.replicate 32 0)).challenge =
      base64url (SHA256.sha256
        (strBytes (generatePKCE (List.replicate 32 0)).verifier)) ∧
     ∃ bytes : List Nat, 32 ≤ bytes.length ∧
       (generatePKCE (List.replicate 32 0)).verifier = base64url bytes) :=
  ⟨by decide, generatePKCE_spec (List.replicate 32 0) (by decide)⟩

set_option maxRecDepth 8192 in
/-- The concrete PKCE pair for the all-zero random input, checked
against an independent implementation end to end: the verifier is 43
URL-safe characters and the challenge is the encoded digest. -/
theorem generatePKCE_concrete_pair :
    generatePKCE (List.replicate 32 0) =
      { challenge := "DwBzhbb51LfusnSGBa_hqYSgo7-j8BTQnip4TOnlzRo"
        verifier := "AAAAAAAAAAAAAAAAAAAAAAAAAAAAAAAAAAAAAAAAAAA" } := by
  rfl

end TekmarWifi
